import Mathlib

/-!
Verification development for the flasktest repository.

The definitions below shallowly embed the two source files:

* src/app.py — patient-record enrichment: next-visit date arithmetic
  (calculate_next_visit), remaining-day computation and address geocoding
  (process_patient_data).
* src/route.py — route planning: the haversine distance primitive
  (calculate_distance), the 5 km proximity filter and emergency/regular
  selection (route), segment distances (calc_route_distance) and the
  /plan_route handler (plan_route).

Machine-level conventions: Python ints become Nat/Int, floats become real
numbers, dates become an explicit calendar Date structure with day-by-day
successor arithmetic (mirroring timedelta addition), and code that can raise
an exception is embedded with an Except String result.
-/

open Real

set_option maxRecDepth 40000

/-- Calendar date. Python datetime/pandas Timestamp values in src/app.py are
dates at midnight; only the calendar components matter to the code. -/
structure Date where
  year : Nat
  month : Nat
  day : Nat
deriving DecidableEq, Repr

/-- Gregorian leap-year rule, as implemented by Python's datetime module. -/
def isLeapYear (y : Nat) : Bool :=
  (y % 4 == 0 && y % 100 != 0) || y % 400 == 0

/-- Number of days in a month of a given year (Gregorian calendar, as used by
Python's datetime arithmetic underlying timedelta addition). -/
def daysInMonth (y m : Nat) : Nat :=
  if m = 2 then (if isLeapYear y then 29 else 28)
  else if m = 4 ∨ m = 6 ∨ m = 9 ∨ m = 11 then 30
  else 31

/-- Day-stepping worker for date plus days: advances (year, month, day)
one calendar day at a time. -/
def addDaysAux : Nat → Nat → Nat → Nat → Date
  | y, m, day, 0 => ⟨y, m, day⟩
  | y, m, day, n + 1 =>
      if day < daysInMonth y m then addDaysAux y m (day + 1) n
      else if m < 12 then addDaysAux y (m + 1) 1 n
      else addDaysAux (y + 1) 1 1 n

/-- Date plus a number of days, mirroring Python's
`date + timedelta(days=n)` for nonnegative n. -/
def addDays (d : Date) (n : Nat) : Date := addDaysAux d.year d.month d.day n

/-- Chronological order on dates (year, then month, then day). -/
def dateLe (a b : Date) : Prop :=
  a.year < b.year ∨
    (a.year = b.year ∧ (a.month < b.month ∨ (a.month = b.month ∧ a.day ≤ b.day)))

/-- Days in a whole year. -/
def daysInYear (y : Nat) : Nat := if isLeapYear y then 366 else 365

/-- Total days in all years before year y (used to linearise dates). -/
def daysBeforeYear : Nat → Nat
  | 0 => 0
  | y + 1 => daysBeforeYear y + daysInYear y

/-- Total days in months 1..m of year y. -/
def monthsDays (y : Nat) : Nat → Nat
  | 0 => 0
  | m + 1 => monthsDays y m + daysInMonth y (m + 1)

/-- Linear day index of a date; differences of these indices are what
pandas reports as `.dt.days` between two dates. -/
def toOrdinal (d : Date) : Nat :=
  daysBeforeYear d.year + monthsDays d.year (d.month - 1) + d.day

/-- Embedding of calculate_next_visit (src/app.py lines 27-43): the if/elif
chain mapping the visit-frequency label to a day offset added to the previous
visit date; any unrecognized label leaves the date unchanged. -/
def calculate_next_visit (prev_visit_date : Date) (visit_freq : String) : Date :=
  if visit_freq = "Every 6 months" then addDays prev_visit_date 180
  else if visit_freq = "Every 1 year" then addDays prev_visit_date 365
  else if visit_freq = "Every 3 months" then addDays prev_visit_date 90
  else if visit_freq = "Every 2 months" then addDays prev_visit_date 60
  else prev_visit_date

/-- Offset table exactly as the specification words it (section 4.1): used
only to compare the code's if/elif chain against the spec's table. -/
def periodOffsets : List (String × Nat) :=
  [("Every 6 months", 180), ("Every 1 year", 365),
   ("Every 3 months", 90), ("Every 2 months", 60)]

/-- Four-quadrant arctangent, as computed by Python's math.atan2(y, x). -/
noncomputable def atan2 (y x : ℝ) : ℝ :=
  if 0 < x then Real.arctan (y / x)
  else if x < 0 ∧ 0 ≤ y then Real.arctan (y / x) + Real.pi
  else if x < 0 ∧ y < 0 then Real.arctan (y / x) - Real.pi
  else if x = 0 ∧ 0 < y then Real.pi / 2
  else if x = 0 ∧ y < 0 then -(Real.pi / 2)
  else 0

/-- Degree-to-radian conversion, Python's math.radians. -/
noncomputable def radians (deg : ℝ) : ℝ := deg * Real.pi / 180

/-- Intermediate haversine quantity, the variable a of calculate_distance
(src/route.py line 14). -/
noncomputable def haversine_a (lat1 lon1 lat2 lon2 : ℝ) : ℝ :=
  Real.sin ((radians lat2 - radians lat1) / 2) ^ 2 +
    Real.cos (radians lat1) * Real.cos (radians lat2) *
      Real.sin ((radians lon2 - radians lon1) / 2) ^ 2

/-- Embedding of calculate_distance (src/route.py lines 9-16): haversine
great-circle distance on a sphere of radius 6371 km, inputs in degrees. -/
noncomputable def calculate_distance (lat1 lon1 lat2 lon2 : ℝ) : ℝ :=
  6371 * (2 * atan2 (Real.sqrt (haversine_a lat1 lon1 lat2 lon2))
    (Real.sqrt (1 - haversine_a lat1 lon1 lat2 lon2)))

/-- Patient object as consumed by the routing pipeline: an id and the
location field. A location value of none embeds the null coordinates a
patient carries when geocoding did not resolve their address; accessing it
inside calculate_distance is the embedded TypeError. The remaining JSON
fields of a patient object are carried through untouched by route and are
irrelevant to it, so they are omitted. -/
structure Patient where
  patientid : Nat
  location : Option (ℝ × ℝ)

/-- Boolean form of the 5 km proximity test of src/route.py line 26
(distance at most 5 km), false for an unresolved location. -/
noncomputable def withinFive (doctor_location : ℝ × ℝ) (p : Patient) : Bool :=
  match p.location with
  | some loc =>
      decide (calculate_distance doctor_location.1 doctor_location.2 loc.1 loc.2 ≤ 5)
  | none => false

/-- Embedding of the proximity loop of route (src/route.py lines 20-27):
walks the patient list in order, keeping patients within 5 km; a patient
whose location is unresolved makes calculate_distance raise, which aborts
the whole request, embedded as an error result. -/
noncomputable def nearbyPatients (doctor_location : ℝ × ℝ) :
    List Patient → Except String (List Patient)
  | [] => .ok []
  | p :: rest =>
    match p.location with
    | none => .error "unresolved location"
    | some loc =>
      match nearbyPatients doctor_location rest with
      | .error e => .error e
      | .ok tail =>
        if calculate_distance doctor_location.1 doctor_location.2 loc.1 loc.2 ≤ 5 then
          .ok (p :: tail)
        else .ok tail

/-- Modelled from the spec: Python's random.seed followed by
random.randint(a, b) (the standard-library PRNG is outside this repository).
Because route reseeds the generator with the date-derived seed immediately
before the single draw (src/route.py lines 33-34), the draw is a
deterministic function of the seed with a value in the inclusive range
a..b; section 4.2 of the spec allows any such deterministic
inclusive-range generator in place of bit-exact Mersenne Twister output.
This model mixes the seed multiplicatively modulo 2^32 and reduces it to
the range. -/
def randintSeeded (seed a b : Nat) : Nat :=
  a + seed * 2654435761 % 4294967296 % (b - a + 1)

/-- Capacity draw of route (src/route.py lines 31-34): the PRNG is seeded
with year*10000 + month*100 + day of the current date and one value is
drawn from 4..7 inclusive. -/
def totalPatientsNeeded (y m d : Nat) : Nat :=
  randintSeeded (y * 10000 + m * 100 + d) 4 7

/-- Embedding of route (src/route.py lines 19-46). The current date,
obtained in Python from datetime.now(), is passed explicitly. -/
noncomputable def route (doctor_location : ℝ × ℝ) (patients_data : List Patient)
    (emergency_calls : List Nat) (y m d : Nat) : Except String (List Patient) :=
  match nearbyPatients doctor_location patients_data with
  | .error e => .error e
  | .ok nearby_patients =>
    let emergency_patients :=
      nearby_patients.filter (fun p => emergency_calls.contains p.patientid)
    let total_patients_needed := totalPatientsNeeded y m d
    if total_patients_needed ≤ emergency_patients.length then
      .ok emergency_patients
    else if 0 < emergency_patients.length then
      let remaining_slots := total_patients_needed - emergency_patients.length
      let regular_patients :=
        nearby_patients.filter (fun p => !(emergency_calls.contains p.patientid))
      .ok (emergency_patients ++ regular_patients.take remaining_slots)
    else
      .ok (nearby_patients.take total_patients_needed)

/-- Consecutive-stop distances, the loop of calc_route_distance
(src/route.py lines 55-62); an unresolved location raises inside
calculate_distance. -/
noncomputable def consecutiveDistances : List Patient → Except String (List ℝ)
  | [] => .ok []
  | [_] => .ok []
  | p :: q :: rest =>
    match p.location, q.location with
    | some lp, some lq =>
      match consecutiveDistances (q :: rest) with
      | .error e => .error e
      | .ok ds => .ok (calculate_distance lp.1 lp.2 lq.1 lq.2 :: ds)
    | _, _ => .error "unresolved location"

/-- Embedding of calc_route_distance (src/route.py lines 49-63): the
distance from the doctor to the first stop followed by consecutive-stop
distances. The unguarded route_plan[0] access on line 53 raises IndexError
on an empty plan, embedded as an error result. -/
noncomputable def calc_route_distance (route_plan : List Patient)
    (doctor_location : ℝ × ℝ) : Except String (List ℝ) :=
  match route_plan with
  | [] => .error "list index out of range"
  | p0 :: _ =>
    match p0.location with
    | none => .error "unresolved location"
    | some l0 =>
      match consecutiveDistances route_plan with
      | .error e => .error e
      | .ok rest =>
        .ok (calculate_distance doctor_location.1 doctor_location.2 l0.1 l0.2 :: rest)

/-- Embedding of the /plan_route handler body (src/route.py lines 79-88):
route then calc_route_distance, the success payload being the triple
(route_plan, route_distances, total_patients); any raised error becomes the
400 response, embedded as the error case. -/
noncomputable def plan_route (doctor_location : ℝ × ℝ) (patients : List Patient)
    (emergency_calls : List Nat) (y m d : Nat) :
    Except String (List Patient × List ℝ × Nat) :=
  match route doctor_location patients emergency_calls y m d with
  | .error e => .error e
  | .ok route_plan =>
    match calc_route_distance route_plan doctor_location with
    | .error e => .error e
    | .ok route_distances => .ok (route_plan, route_distances, route_plan.length)

/-- Result of one geocoding lookup performed by the external Nominatim
geocoder used in src/app.py: coordinates found, no match (geocode returned
None), or a raised exception (provider or network failure). The geocoder is
an external collaborator, so process_patient_data is parameterized by it. -/
inductive GeocodeResult where
  | found (lat lon : ℚ)
  | noMatch
  | failure (msg : String)

/-- One row of the incoming patient table consumed by process_patient_data
(src/app.py): id, last visit date, visit-frequency label and free-text
address. -/
structure PatientRow where
  patientid : Nat
  visitDate : Date
  period : String
  address : String
deriving DecidableEq

/-- One processed row: the input columns plus the resDate, remaining_days,
latitude and longitude columns added by process_patient_data. -/
structure EnrichedRow where
  patientid : Nat
  visitDate : Date
  period : String
  address : String
  resDate : Date
  remaining_days : Int
  latitude : Option ℚ
  longitude : Option ℚ
deriving DecidableEq

/-- Loop body of process_patient_data (src/app.py lines 57-72) for a single
row: the next-visit date and remaining days are computed, then the address
is geocoded; a lookup with no match stores null coordinates, and the
try/except around the call turns a raised geocoding exception into null
coordinates for this one row as well. -/
def processRow (geocode : String → GeocodeResult) (today : Date)
    (row : PatientRow) : EnrichedRow :=
  let resDate := calculate_next_visit row.visitDate row.period
  let loc : Option (ℚ × ℚ) :=
    match geocode row.address with
    | .found lat lon => some (lat, lon)
    | .noMatch => none
    | .failure _ => none
  { patientid := row.patientid, visitDate := row.visitDate, period := row.period,
    address := row.address, resDate := resDate,
    remaining_days := (toOrdinal resDate : Int) - (toOrdinal today : Int),
    latitude := loc.map Prod.fst, longitude := loc.map Prod.snd }

/-- Embedding of process_patient_data (src/app.py lines 13-74): every row of
the table is processed in order by the row-wise loop body; a geocoding
failure is absorbed row-locally, so the batch is never aborted. -/
def process_patient_data (geocode : String → GeocodeResult) (today : Date)
    (rows : List PatientRow) : List EnrichedRow :=
  rows.map (processRow geocode today)

/-- Seven emergency patients standing at the doctor's location, used to
exercise the emergency-overflow branch of route on a concrete input. -/
def emergencyDemoPatients : List Patient :=
  [{ patientid := 1, location := some (0, 0) }, { patientid := 2, location := some (0, 0) },
   { patientid := 3, location := some (0, 0) }, { patientid := 4, location := some (0, 0) },
   { patientid := 5, location := some (0, 0) }, { patientid := 6, location := some (0, 0) },
   { patientid := 7, location := some (0, 0) }]

/-- Emergency-call ids matching all seven demo patients. -/
def emergencyDemoCalls : List Nat := [1, 2, 3, 4, 5, 6, 7]

/-- Three patients at the doctor's location of which only the first is an
emergency, used to exercise the mixed emergency/regular branch of route. -/
def mixedDemoPatients : List Patient :=
  [{ patientid := 1, location := some (0, 0) }, { patientid := 2, location := some (0, 0) },
   { patientid := 3, location := some (0, 0) }]

/-- Demo geocoder: resolves one known address and fails with a network
error on every other address. -/
def demoGeocode (addr : String) : GeocodeResult :=
  if addr = "Seoul Station" then .found 37 127
  else .failure "network error"

/-- Two demo patient rows; the second one has an address the demo geocoder
fails on. -/
def demoRows : List PatientRow :=
  [{ patientid := 1, visitDate := ⟨2024, 1, 1⟩, period := "Every 2 months",
     address := "Seoul Station" },
   { patientid := 2, visitDate := ⟨2024, 1, 1⟩, period := "Every 1 year",
     address := "Nowhere" }]

/-- The second demo row (the one whose address fails to geocode). -/
def demoRow2 : PatientRow :=
  { patientid := 2, visitDate := ⟨2024, 1, 1⟩, period := "Every 1 year",
    address := "Nowhere" }

lemma dateLe_refl (d : Date) : dateLe d d := by
  simp [dateLe]

lemma dateLe_trans {a b c : Date} (h1 : dateLe a b) (h2 : dateLe b c) :
    dateLe a c := by
  simp only [dateLe] at h1 h2 ⊢
  omega

lemma dateLe_addDaysAux (n y m day : Nat) :
    dateLe ⟨y, m, day⟩ (addDaysAux y m day n) := by
  induction n generalizing y m day with
  | zero => exact dateLe_refl _
  | succ k ih =>
    simp only [addDaysAux]
    split
    · exact dateLe_trans (by simp [dateLe]) (ih y m (day + 1))
    · split
      · exact dateLe_trans (by simp [dateLe]) (ih y (m + 1) 1)
      · exact dateLe_trans (by simp [dateLe]) (ih (y + 1) 1 1)

lemma dateLe_addDays (d : Date) (n : Nat) : dateLe d (addDays d n) :=
  dateLe_addDaysAux n d.year d.month d.day

/-- C7 counterexample: the claim asserts that visit date 2024-01-01 with
period "Every 1 year" resolves to 2025-01-01 exactly; the code adds a fixed
365-day offset, and 2024 is a leap year, so it actually resolves to
2024-12-31, not 2025-01-01. -/
theorem nextVisit_2024_leap_counterexample :
    calculate_next_visit ⟨2024, 1, 1⟩ "Every 1 year" = ⟨2024, 12, 31⟩ ∧
      calculate_next_visit ⟨2024, 1, 1⟩ "Every 1 year" ≠ ⟨2025, 1, 1⟩ := by
  constructor <;> decide

/-- C7 (amended): the next-visit calculator agrees with the spec's offset
table (180/365/90/60 days, unmapped labels giving offset 0), the resolved
date is never before the visit date, and visit date 2024-01-01 with period
"Every 1 year" resolves to 2024-12-31 (2024 being a leap year, 365 days
after 2024-01-01 is 2024-12-31, not 2025-01-01). -/
theorem nextVisit_offset_table (vd : Date) (period : String) :
    calculate_next_visit vd period = addDays vd ((periodOffsets.lookup period).getD 0) ∧
      dateLe vd (calculate_next_visit vd period) ∧
      calculate_next_visit ⟨2024, 1, 1⟩ "Every 1 year" = ⟨2024, 12, 31⟩ := by
  have htab :
      calculate_next_visit vd period = addDays vd ((periodOffsets.lookup period).getD 0) := by
    by_cases h1 : period = "Every 6 months"
    · have b1 : (period == "Every 6 months") = true := by rw [h1]; exact beq_self_eq_true _
      simp only [calculate_next_visit, if_pos h1, periodOffsets, List.lookup, b1, Option.getD_some]
    · have e1 : (period == "Every 6 months") = false := beq_eq_false_iff_ne.mpr h1
      by_cases h2 : period = "Every 1 year"
      · have b2 : (period == "Every 1 year") = true := by rw [h2]; exact beq_self_eq_true _
        simp only [calculate_next_visit, if_neg h1, if_pos h2, periodOffsets, List.lookup,
          e1, b2, Option.getD_some]
      · have e2 : (period == "Every 1 year") = false := beq_eq_false_iff_ne.mpr h2
        by_cases h3 : period = "Every 3 months"
        · have b3 : (period == "Every 3 months") = true := by rw [h3]; exact beq_self_eq_true _
          simp only [calculate_next_visit, if_neg h1, if_neg h2, if_pos h3, periodOffsets,
            List.lookup, e1, e2, b3, Option.getD_some]
        · have e3 : (period == "Every 3 months") = false := beq_eq_false_iff_ne.mpr h3
          by_cases h4 : period = "Every 2 months"
          · have b4 : (period == "Every 2 months") = true := by rw [h4]; exact beq_self_eq_true _
            simp only [calculate_next_visit, if_neg h1, if_neg h2, if_neg h3, if_pos h4,
              periodOffsets, List.lookup, e1, e2, e3, b4, Option.getD_some]
          · have e4 : (period == "Every 2 months") = false := beq_eq_false_iff_ne.mpr h4
            simp only [calculate_next_visit, if_neg h1, if_neg h2, if_neg h3, if_neg h4,
              periodOffsets, List.lookup, e1, e2, e3, e4, Option.getD_none]
            rfl
  refine ⟨htab, ?_, by decide⟩
  rw [htab]
  exact dateLe_addDays vd ((periodOffsets.lookup period).getD 0)

lemma atan2_zero_one : atan2 0 1 = 0 := by
  simp [atan2]

lemma haversine_a_self (lat lon : ℝ) : haversine_a lat lon lat lon = 0 := by
  simp [haversine_a]

lemma haversine_a_comm (lat1 lon1 lat2 lon2 : ℝ) :
    haversine_a lat1 lon1 lat2 lon2 = haversine_a lat2 lon2 lat1 lon1 := by
  have h : ∀ x y : ℝ, Real.sin ((x - y) / 2) ^ 2 = Real.sin ((y - x) / 2) ^ 2 := by
    intro x y
    rw [show (x - y) / 2 = -((y - x) / 2) by ring, Real.sin_neg, neg_sq]
  unfold haversine_a
  rw [h (radians lat2) (radians lat1), h (radians lon2) (radians lon1),
    mul_comm (Real.cos (radians lat1)) (Real.cos (radians lat2))]

lemma calculate_distance_self (lat lon : ℝ) : calculate_distance lat lon lat lon = 0 := by
  simp [calculate_distance, haversine_a_self, atan2_zero_one]

lemma calculate_distance_comm (lat1 lon1 lat2 lon2 : ℝ) :
    calculate_distance lat1 lon1 lat2 lon2 = calculate_distance lat2 lon2 lat1 lon1 := by
  unfold calculate_distance
  rw [haversine_a_comm lat1 lon1 lat2 lon2]

lemma withinFive_iff (doc : ℝ × ℝ) (p : Patient) :
    withinFive doc p = true ↔
      ∃ loc, p.location = some loc ∧ calculate_distance doc.1 doc.2 loc.1 loc.2 ≤ 5 := by
  cases hl : p.location with
  | none => simp [withinFive, hl]
  | some loc => simp [withinFive, hl]

lemma nearbyPatients_eq_filter (doc : ℝ × ℝ) (ps : List Patient)
    (h : ∀ p ∈ ps, p.location ≠ none) :
    nearbyPatients doc ps = .ok (ps.filter (withinFive doc)) := by
  induction ps with
  | nil => rfl
  | cons p rest ih =>
    have hp : p.location ≠ none := h p (List.mem_cons_self p rest)
    obtain ⟨loc, hloc⟩ := Option.ne_none_iff_exists'.mp hp
    have ih' := ih (fun q hq => h q (List.mem_cons_of_mem p hq))
    by_cases hd : calculate_distance doc.1 doc.2 loc.1 loc.2 ≤ 5
    · have hw : withinFive doc p = true := by simp [withinFive, hloc, hd]
      simp only [nearbyPatients, hloc, ih', List.filter_cons, hw, if_pos hd]
      simp
    · have hw : withinFive doc p = false := by simp [withinFive, hloc, hd]
      simp only [nearbyPatients, hloc, ih', List.filter_cons, hw, if_neg hd]
      simp

lemma consecutiveDistances_length (l : List Patient) (ds : List ℝ)
    (h : consecutiveDistances l = .ok ds) (hne : l ≠ []) : ds.length + 1 = l.length := by
  induction l generalizing ds with
  | nil => exact absurd rfl hne
  | cons p rest ih =>
    cases rest with
    | nil =>
      simp only [consecutiveDistances] at h
      cases h
      rfl
    | cons q rest2 =>
      simp only [consecutiveDistances] at h
      cases hp : p.location with
      | none => rw [hp] at h; cases hq : q.location <;> rw [hq] at h <;> cases h
      | some lp =>
        cases hq : q.location with
        | none => rw [hp, hq] at h; cases h
        | some lq =>
          rw [hp, hq] at h
          cases hc : consecutiveDistances (q :: rest2) with
          | error e => rw [hc] at h; cases h
          | ok ds2 =>
            rw [hc] at h
            cases h
            have := ih ds2 hc (List.cons_ne_nil q rest2)
            simp only [List.length_cons] at this ⊢
            omega

lemma calc_route_distance_length (rp : List Patient) (doc : ℝ × ℝ) (ds : List ℝ)
    (h : calc_route_distance rp doc = .ok ds) : ds.length = rp.length := by
  cases rp with
  | nil => simp [calc_route_distance] at h
  | cons p0 rest =>
    simp only [calc_route_distance] at h
    cases h0 : p0.location with
    | none => rw [h0] at h; cases h
    | some l0 =>
      rw [h0] at h
      cases hc : consecutiveDistances (p0 :: rest) with
      | error e => rw [hc] at h; cases h
      | ok ds2 =>
        rw [hc] at h
        cases h
        have := consecutiveDistances_length (p0 :: rest) ds2 hc (List.cons_ne_nil p0 rest)
        simp only [List.length_cons] at this ⊢
        omega

lemma totalPatientsNeeded_ge (y m d : Nat) : 4 ≤ totalPatientsNeeded y m d :=
  Nat.le_add_right 4 _

lemma totalPatientsNeeded_le (y m d : Nat) : totalPatientsNeeded y m d ≤ 7 := by
  unfold totalPatientsNeeded randintSeeded
  omega

/-- C9: the shared distance primitive is symmetric in its two coordinate
pairs, and the distance from a point to itself is exactly 0 (so in
particular within any floating-point tolerance). -/
theorem calculate_distance_symm_and_self (lat1 lon1 lat2 lon2 : ℝ) :
    calculate_distance lat1 lon1 lat2 lon2 = calculate_distance lat2 lon2 lat1 lon1 ∧
      calculate_distance lat1 lon1 lat1 lon1 = 0 :=
  ⟨calculate_distance_comm lat1 lon1 lat2 lon2, calculate_distance_self lat1 lon1⟩

/-- C2 (code bug): on an empty route plan, calc_route_distance evaluates
route_plan[0] before any loop and raises IndexError for every doctor
location, instead of returning the empty distance sequence the spec
requires. -/
theorem calc_route_distance_empty_errors (doc : ℝ × ℝ) :
    calc_route_distance [] doc = .error "list index out of range" := rfl

/-- C5 (code bug): a patient whose location is unresolved is not skipped by
the proximity loop; calculate_distance is applied to the null coordinates
and raises, aborting the whole route computation instead of excluding just
that patient. -/
theorem route_unresolved_location_errors (doc : ℝ × ℝ) (rest : List Patient)
    (calls : List Nat) (y m d : Nat) :
    route doc ({ patientid := 1, location := none } :: rest) calls y m d =
      .error "unresolved location" := by
  simp [route, nearbyPatients]

/-- C3: the capacity draw always lies in the inclusive range [4,7], is the
draw seeded with year*10000 + month*100 + day, and is a deterministic
function of that seed: any two dates with the same seed value (in
particular, the same date twice) yield the identical capacity. -/
theorem capacity_range_and_deterministic (y m d : Nat) :
    4 ≤ totalPatientsNeeded y m d ∧ totalPatientsNeeded y m d ≤ 7 ∧
      totalPatientsNeeded y m d = randintSeeded (y * 10000 + m * 100 + d) 4 7 ∧
      ∀ y2 m2 d2 : Nat, y2 * 10000 + m2 * 100 + d2 = y * 10000 + m * 100 + d →
        totalPatientsNeeded y2 m2 d2 = totalPatientsNeeded y m d := by
  refine ⟨totalPatientsNeeded_ge y m d, totalPatientsNeeded_le y m d, rfl, ?_⟩
  intro y2 m2 d2 h
  unfold totalPatientsNeeded
  rw [h]

/-- Witness for C3 on the concrete date 2024-01-01: the bounds hold, the
draw evaluates to 5, and a repeated draw on the same date is identical. -/
theorem capacity_range_and_deterministic_witness :
    4 ≤ totalPatientsNeeded 2024 1 1 ∧ totalPatientsNeeded 2024 1 1 ≤ 7 ∧
      totalPatientsNeeded 2024 1 1 = 5 ∧
      totalPatientsNeeded 2024 1 1 = totalPatientsNeeded 2024 1 1 :=
  ⟨(capacity_range_and_deterministic 2024 1 1).1,
    (capacity_range_and_deterministic 2024 1 1).2.1,
    by decide,
    (capacity_range_and_deterministic 2024 1 1).2.2.2 2024 1 1 rfl⟩

/-- C4: when every patient has a resolved location, the proximity stage
returns exactly the order-preserving sub-list of patients within 5 km of
the doctor (withinFive is precisely the distance-at-most-5 test), and a
patient at exactly 5.0 km is kept. -/
theorem proximity_filter_spec (doc : ℝ × ℝ) (ps : List Patient)
    (hloc : ∀ p ∈ ps, p.location ≠ none) :
    nearbyPatients doc ps = .ok (ps.filter (withinFive doc)) ∧
      (∀ p ∈ ps, (withinFive doc p = true ↔
        ∃ loc, p.location = some loc ∧
          calculate_distance doc.1 doc.2 loc.1 loc.2 ≤ 5)) ∧
      (∀ p ∈ ps, ∀ loc, p.location = some loc →
        calculate_distance doc.1 doc.2 loc.1 loc.2 = 5 →
          p ∈ ps.filter (withinFive doc)) := by
  refine ⟨nearbyPatients_eq_filter doc ps hloc, fun p _ => withinFive_iff doc p, ?_⟩
  intro p hp loc hl hd
  rw [List.mem_filter]
  exact ⟨hp, (withinFive_iff doc p).mpr ⟨loc, hl, hd.le⟩⟩

/-- Witness for C4: a single patient standing at the doctor's own location
(distance 0 km) has a resolved location and survives the proximity stage. -/
theorem proximity_filter_spec_witness :
    (∀ p ∈ [({ patientid := 1, location := some (0, 0) } : Patient)], p.location ≠ none) ∧
      nearbyPatients (0, 0) [{ patientid := 1, location := some (0, 0) }] =
        .ok [{ patientid := 1, location := some (0, 0) }] := by
  have hloc : ∀ p ∈ [({ patientid := 1, location := some (0, 0) } : Patient)],
      p.location ≠ none := by
    intro p hp
    rw [List.mem_singleton] at hp
    subst hp
    simp
  have hw : withinFive (0, 0) { patientid := 1, location := some (0, 0) } = true := by
    show decide (calculate_distance (0 : ℝ) 0 0 0 ≤ 5) = true
    rw [decide_eq_true_eq, calculate_distance_self]
    norm_num
  have h := (proximity_filter_spec (0, 0)
    [{ patientid := 1, location := some (0, 0) }] hloc).1
  rw [h, List.filter_eq_self.mpr ?_]
  · exact ⟨hloc, rfl⟩
  · intro a ha
    rw [List.mem_singleton] at ha
    subst ha
    exact hw

/-- C1: whenever the emergency patients among the proximity-filtered list
number at least the capacity, route returns exactly that emergency list —
unsliced, in original relative order — even if it is longer than the
capacity. -/
theorem route_emergency_unsliced (doc : ℝ × ℝ) (ps : List Patient) (calls : List Nat)
    (y m d : Nat) (hloc : ∀ p ∈ ps, p.location ≠ none)
    (hge : totalPatientsNeeded y m d ≤
      ((ps.filter (withinFive doc)).filter (fun p => calls.contains p.patientid)).length) :
    route doc ps calls y m d =
      .ok ((ps.filter (withinFive doc)).filter (fun p => calls.contains p.patientid)) := by
  simp only [route, nearbyPatients_eq_filter doc ps hloc]
  rw [if_pos hge]

/-- Witness for C1: seven emergency patients at the doctor's location on
2024-01-01 (capacity 5): all seven are returned, exceeding the capacity. -/
theorem route_emergency_unsliced_witness :
    (∀ p ∈ emergencyDemoPatients, p.location ≠ none) ∧
      totalPatientsNeeded 2024 1 1 ≤
        ((emergencyDemoPatients.filter (withinFive (0, 0))).filter
          (fun p => emergencyDemoCalls.contains p.patientid)).length ∧
      route (0, 0) emergencyDemoPatients emergencyDemoCalls 2024 1 1 =
        .ok emergencyDemoPatients := by
  have hloc : ∀ p ∈ emergencyDemoPatients, p.location ≠ none := by
    intro p hp
    simp only [emergencyDemoPatients] at hp
    fin_cases hp <;> simp
  have hw : ∀ id : Nat,
      withinFive (0, 0) { patientid := id, location := some (0, 0) } = true := by
    intro id
    show decide (calculate_distance (0 : ℝ) 0 0 0 ≤ 5) = true
    rw [decide_eq_true_eq, calculate_distance_self]
    norm_num
  have hfil : emergencyDemoPatients.filter (withinFive (0, 0)) = emergencyDemoPatients :=
    List.filter_eq_self.mpr (by
      intro a ha
      simp only [emergencyDemoPatients] at ha
      fin_cases ha <;> exact hw _)
  have hem : emergencyDemoPatients.filter
      (fun p => emergencyDemoCalls.contains p.patientid) = emergencyDemoPatients :=
    List.filter_eq_self.mpr (by
      intro a ha
      simp only [emergencyDemoPatients] at ha
      fin_cases ha <;> rfl)
  have hlen : emergencyDemoPatients.length = 7 := rfl
  have hge : totalPatientsNeeded 2024 1 1 ≤
      ((emergencyDemoPatients.filter (withinFive (0, 0))).filter
        (fun p => emergencyDemoCalls.contains p.patientid)).length := by
    rw [hfil, hem, hlen]
    exact totalPatientsNeeded_le 2024 1 1
  have h := route_emergency_unsliced (0, 0) emergencyDemoPatients emergencyDemoCalls
    2024 1 1 hloc hge
  rw [hfil, hem] at h
  exact ⟨hloc, hge, h⟩

/-- C6: with at least one but fewer emergency patients than the capacity,
route returns the emergency patients followed by the first
capacity-minus-emergency-count regular patients, all in original order;
and when there are at most that many regulars, every regular is returned —
no padding and no error. -/
theorem route_mixed_emergency (doc : ℝ × ℝ) (ps : List Patient) (calls : List Nat)
    (y m d : Nat) (hloc : ∀ p ∈ ps, p.location ≠ none)
    (hpos : 0 < ((ps.filter (withinFive doc)).filter
      (fun p => calls.contains p.patientid)).length)
    (hlt : ((ps.filter (withinFive doc)).filter
      (fun p => calls.contains p.patientid)).length < totalPatientsNeeded y m d) :
    route doc ps calls y m d =
      .ok ((ps.filter (withinFive doc)).filter (fun p => calls.contains p.patientid) ++
        ((ps.filter (withinFive doc)).filter (fun p => !(calls.contains p.patientid))).take
          (totalPatientsNeeded y m d -
            ((ps.filter (withinFive doc)).filter
              (fun p => calls.contains p.patientid)).length)) ∧
      (((ps.filter (withinFive doc)).filter
          (fun p => !(calls.contains p.patientid))).length ≤
          totalPatientsNeeded y m d -
            ((ps.filter (withinFive doc)).filter
              (fun p => calls.contains p.patientid)).length →
        route doc ps calls y m d =
          .ok ((ps.filter (withinFive doc)).filter (fun p => calls.contains p.patientid) ++
            (ps.filter (withinFive doc)).filter (fun p => !(calls.contains p.patientid)))) := by
  have hroute : route doc ps calls y m d =
      .ok ((ps.filter (withinFive doc)).filter (fun p => calls.contains p.patientid) ++
        ((ps.filter (withinFive doc)).filter (fun p => !(calls.contains p.patientid))).take
          (totalPatientsNeeded y m d -
            ((ps.filter (withinFive doc)).filter
              (fun p => calls.contains p.patientid)).length)) := by
    simp only [route, nearbyPatients_eq_filter doc ps hloc]
    rw [if_neg (by omega), if_pos hpos]
  refine ⟨hroute, fun hlen => ?_⟩
  rw [hroute, List.take_of_length_le hlen]

/-- Witness for C6: three patients at the doctor's location, only the
first an emergency, on 2024-01-01 (capacity 5): the emergency patient is
followed by both regulars, i.e. the whole list comes back. -/
theorem route_mixed_emergency_witness :
    (∀ p ∈ mixedDemoPatients, p.location ≠ none) ∧
      0 < ((mixedDemoPatients.filter (withinFive (0, 0))).filter
        (fun p => ([1] : List Nat).contains p.patientid)).length ∧
      ((mixedDemoPatients.filter (withinFive (0, 0))).filter
        (fun p => ([1] : List Nat).contains p.patientid)).length <
        totalPatientsNeeded 2024 1 1 ∧
      route (0, 0) mixedDemoPatients [1] 2024 1 1 = .ok mixedDemoPatients := by
  have hloc : ∀ p ∈ mixedDemoPatients, p.location ≠ none := by
    intro p hp
    simp only [mixedDemoPatients] at hp
    fin_cases hp <;> simp
  have hw : ∀ id : Nat,
      withinFive (0, 0) { patientid := id, location := some (0, 0) } = true := by
    intro id
    show decide (calculate_distance (0 : ℝ) 0 0 0 ≤ 5) = true
    rw [decide_eq_true_eq, calculate_distance_self]
    norm_num
  have hfil : mixedDemoPatients.filter (withinFive (0, 0)) = mixedDemoPatients :=
    List.filter_eq_self.mpr (by
      intro a ha
      simp only [mixedDemoPatients] at ha
      fin_cases ha <;> exact hw _)
  have hE : mixedDemoPatients.filter (fun p => ([1] : List Nat).contains p.patientid) =
      [{ patientid := 1, location := some (0, 0) }] := rfl
  have hR : mixedDemoPatients.filter (fun p => !(([1] : List Nat).contains p.patientid)) =
      [{ patientid := 2, location := some (0, 0) },
       { patientid := 3, location := some (0, 0) }] := rfl
  have hT := totalPatientsNeeded_ge 2024 1 1
  have hpos : 0 < ((mixedDemoPatients.filter (withinFive (0, 0))).filter
      (fun p => ([1] : List Nat).contains p.patientid)).length := by
    rw [hfil, hE]
    exact Nat.one_pos
  have hlt : ((mixedDemoPatients.filter (withinFive (0, 0))).filter
      (fun p => ([1] : List Nat).contains p.patientid)).length <
      totalPatientsNeeded 2024 1 1 := by
    rw [hfil, hE]
    show 1 < totalPatientsNeeded 2024 1 1
    omega
  have hlen : ((mixedDemoPatients.filter (withinFive (0, 0))).filter
      (fun p => !(([1] : List Nat).contains p.patientid))).length ≤
      totalPatientsNeeded 2024 1 1 -
        ((mixedDemoPatients.filter (withinFive (0, 0))).filter
          (fun p => ([1] : List Nat).contains p.patientid)).length := by
    rw [hfil, hE, hR]
    show 2 ≤ totalPatientsNeeded 2024 1 1 - 1
    omega
  have h := (route_mixed_emergency (0, 0) mixedDemoPatients [1]
    2024 1 1 hloc hpos hlt).2 hlen
  rw [hfil, hE, hR] at h
  refine ⟨hloc, hpos, hlt, ?_⟩
  rw [h]
  rfl

/-- C10: every successful plan_route response carries total_patients equal
to the length of route_plan, and (in particular when route_plan is
non-empty) route_distances has the same length as route_plan. -/
theorem plan_route_consistent (doc : ℝ × ℝ) (ps : List Patient) (calls : List Nat)
    (y m d : Nat) (rp : List Patient) (ds : List ℝ) (n : Nat)
    (h : plan_route doc ps calls y m d = .ok (rp, ds, n)) :
    n = rp.length ∧ (rp ≠ [] → ds.length = rp.length) := by
  simp only [plan_route] at h
  split at h
  next e hr => cases h
  next rp2 hr =>
    split at h
    next e hc => cases h
    next ds2 hc =>
      simp only [Except.ok.injEq, Prod.mk.injEq] at h
      obtain ⟨h1, h2, h3⟩ := h
      subst h1
      subst h2
      subst h3
      exact ⟨rfl, fun _ => calc_route_distance_length rp2 doc ds2 hc⟩

/-- Witness for C10: one regular patient at the doctor's location on
2024-01-01; plan_route succeeds with route plan of length 1, one distance
(0 km), and total_patients 1. -/
theorem plan_route_consistent_witness :
    plan_route (0, 0) [{ patientid := 1, location := some (0, 0) }] [] 2024 1 1 =
      .ok ([{ patientid := 1, location := some (0, 0) }], [0], 1) ∧
      (1 : Nat) = [({ patientid := 1, location := some (0, 0) } : Patient)].length ∧
      [(0 : ℝ)].length = [({ patientid := 1, location := some (0, 0) } : Patient)].length := by
  have hloc : ∀ p ∈ [({ patientid := 1, location := some (0, 0) } : Patient)],
      p.location ≠ none := by
    intro p hp
    rw [List.mem_singleton] at hp
    subst hp
    simp
  have hw : withinFive (0, 0) { patientid := 1, location := some (0, 0) } = true := by
    show decide (calculate_distance (0 : ℝ) 0 0 0 ≤ 5) = true
    rw [decide_eq_true_eq, calculate_distance_self]
    norm_num
  have hfil : [({ patientid := 1, location := some (0, 0) } : Patient)].filter
      (withinFive (0, 0)) = [{ patientid := 1, location := some (0, 0) }] :=
    List.filter_eq_self.mpr (by
      intro a ha
      rw [List.mem_singleton] at ha
      subst ha
      exact hw)
  have hnear : nearbyPatients (0, 0) [{ patientid := 1, location := some (0, 0) }] =
      .ok [{ patientid := 1, location := some (0, 0) }] := by
    rw [nearbyPatients_eq_filter (0, 0) _ hloc, hfil]
  have hT := totalPatientsNeeded_ge 2024 1 1
  have hroute : route (0, 0) [{ patientid := 1, location := some (0, 0) }] [] 2024 1 1 =
      .ok [{ patientid := 1, location := some (0, 0) }] := by
    simp only [route, hnear]
    have hE : [({ patientid := 1, location := some (0, 0) } : Patient)].filter
        (fun p => ([] : List Nat).contains p.patientid) = [] := rfl
    rw [hE]
    rw [if_neg (by simp only [List.length_nil]; omega), if_neg (by simp)]
    rw [List.take_of_length_le (by simp only [List.length_singleton]; omega)]
  have hcalc : calc_route_distance [{ patientid := 1, location := some (0, 0) }] (0, 0) =
      .ok [0] := by
    simp only [calc_route_distance, consecutiveDistances]
    rw [show calculate_distance ((0 : ℝ), (0 : ℝ)).1 ((0 : ℝ), (0 : ℝ)).2
      ((0 : ℝ), (0 : ℝ)).1 ((0 : ℝ), (0 : ℝ)).2 = 0 from calculate_distance_self 0 0]
  have hplan : plan_route (0, 0) [{ patientid := 1, location := some (0, 0) }] [] 2024 1 1 =
      .ok ([{ patientid := 1, location := some (0, 0) }], [0], 1) := by
    simp only [plan_route, hroute, hcalc]
    rfl
  have h := plan_route_consistent (0, 0) [{ patientid := 1, location := some (0, 0) }] []
    2024 1 1 [{ patientid := 1, location := some (0, 0) }] [0] 1 hplan
  exact ⟨hplan, h.1, h.2 (by simp)⟩

/-- C8: a geocoding failure on one row is absorbed locally: the batch keeps
its length, the failing row is still enriched (its next-visit date is
computed) but with absent coordinates, and every other row is processed
exactly as the loop body prescribes. -/
theorem geocode_failure_recovered (geocode : String → GeocodeResult) (today : Date)
    (rows : List PatientRow) (i : Nat) (row : PatientRow) (msg : String)
    (hrow : rows[i]? = some row) (hfail : geocode row.address = .failure msg) :
    (process_patient_data geocode today rows).length = rows.length ∧
      (process_patient_data geocode today rows)[i]? =
        some (processRow geocode today row) ∧
      (processRow geocode today row).latitude = none ∧
      (processRow geocode today row).longitude = none ∧
      (processRow geocode today row).resDate =
        calculate_next_visit row.visitDate row.period ∧
      ∀ j : Nat, j ≠ i → (process_patient_data geocode today rows)[j]? =
        (rows[j]?).map (processRow geocode today) := by
  refine ⟨by simp [process_patient_data], ?_, ?_, ?_, rfl, ?_⟩
  · simp [process_patient_data, List.getElem?_map, hrow]
  · simp [processRow, hfail]
  · simp [processRow, hfail]
  · intro j _
    simp [process_patient_data, List.getElem?_map]

/-- Witness for C8 on the demo batch: the geocoder fails with a network
error on the second row's address; the batch of two rows is fully
processed, the second row with absent coordinates and the first row
enriched normally. -/
theorem geocode_failure_recovered_witness :
    demoRows[1]? = some demoRow2 ∧
      demoGeocode demoRow2.address = .failure "network error" ∧
      (process_patient_data demoGeocode ⟨2024, 1, 1⟩ demoRows).length = demoRows.length ∧
      (process_patient_data demoGeocode ⟨2024, 1, 1⟩ demoRows)[1]? =
        some (processRow demoGeocode ⟨2024, 1, 1⟩ demoRow2) ∧
      (processRow demoGeocode ⟨2024, 1, 1⟩ demoRow2).latitude = none ∧
      (process_patient_data demoGeocode ⟨2024, 1, 1⟩ demoRows)[0]? =
        (demoRows[0]?).map (processRow demoGeocode ⟨2024, 1, 1⟩) := by
  have h1 : demoRows[1]? = some demoRow2 := rfl
  have h2 : demoGeocode demoRow2.address = .failure "network error" := rfl
  have happ := geocode_failure_recovered demoGeocode ⟨2024, 1, 1⟩ demoRows 1
    demoRow2 "network error" h1 h2
  exact ⟨h1, h2, happ.1, happ.2.1, happ.2.2.1, happ.2.2.2.2.2 0 (by decide)⟩
